import Mathlib

/-!
Verification of the fido-beam quadruped gait scripts.

Shallow embedding of the Python sources:
* `walk_smooth.py` — smooth sinusoidal gait (`walk_smoothly`, `boot_sequence`,
  `homing_sequence`, `clamp_angle`);
* `walk.py` — discrete stepping gait (`homing_sequence`, `generate_angles`,
  `lift_legs`, `swing_legs_forward`, `lower_legs`, `walk`, `handle_disconnection`);
* `walk_old.py` — earliest gait loop with hand-written phase shifts;
* `walk_step_by_step_single_leg.py` — shares `clamp_angle` and the
  neutral-angle homing with `walk_smooth.py`.

Angles driven by trigonometric waveforms are modelled over `ℝ`; the purely
rational tables and stepping logic of `walk.py` are modelled over `ℚ` so that
concrete traces are computable.
-/

namespace FidoBeam

/-- Mechanical role of a servo: `bottom` = swing axis ("Bottom" in the Python
servo name), `top` = lift axis ("Top" in the name). -/
inductive Role
  | bottom
  | top
deriving DecidableEq, Repr

/-- Calibration record for one servo of `walk_smooth.py`'s `SERVOS` table
after `configure_servos`/`boot_sequence`: angle limits, neutral angle, and the
role-specific extremes (`swing_forward`/`swing_backward` for a bottom servo,
`lift_up`/`lift_down` for a top servo; the fields of the other role are unused).
Angles are degrees, modelled as reals. -/
structure GaitCal where
  role : Role
  min_angle : ℝ
  max_angle : ℝ
  neutral_angle : ℝ
  swing_forward : ℝ
  swing_backward : ℝ
  lift_up : ℝ
  lift_down : ℝ

/-- The clamping computation shared by `clamp_angle` in `walk_smooth.py`
(lines 249-256) and `walk_step_by_step_single_leg.py` (lines 177-184):
`clamped = max(min(angle, max_angle), min_angle)`. -/
def clamp_val {α : Type} [LinearOrder α] (min_angle max_angle x : α) : α :=
  max (min x max_angle) min_angle

noncomputable section

/-- `clamp_angle` of `walk_smooth.py`, reading the limits from the servo's
calibration record. -/
def clamp_angle (c : GaitCal) (angle : ℝ) : ℝ :=
  clamp_val c.min_angle c.max_angle angle

/-- `AMPLITUDE` as computed in `boot_sequence` of `walk_smooth.py`
(lines 209-224): `(swing_forward - swing_backward) / 2` for a bottom servo,
`(lift_up - lift_down) / 2` for a top servo. -/
def amplitude (c : GaitCal) : ℝ :=
  match c.role with
  | Role.bottom => (c.swing_forward - c.swing_backward) / 2
  | Role.top => (c.lift_up - c.lift_down) / 2

/-- `OFFSET` as computed in `boot_sequence` of `walk_smooth.py`
(lines 209-224): `(swing_forward + swing_backward) / 2` for a bottom servo,
`(lift_up + lift_down) / 2` for a top servo. -/
def offset (c : GaitCal) : ℝ :=
  match c.role with
  | Role.bottom => (c.swing_forward + c.swing_backward) / 2
  | Role.top => (c.lift_up + c.lift_down) / 2

/-- Raw waveform value of `walk_smoothly` (walk_smooth.py lines 292-296):
with `p = phase + group_offset`, a bottom (swing) servo gets
`AMPLITUDE * sin(p) + OFFSET` and a top (lift) servo gets
`AMPLITUDE * cos(p) + OFFSET`. -/
def raw_angle (c : GaitCal) (phase group_offset : ℝ) : ℝ :=
  match c.role with
  | Role.bottom => amplitude c * Real.sin (phase + group_offset) + offset c
  | Role.top => amplitude c * Real.cos (phase + group_offset) + offset c

/-- The angle actually commanded by `walk_smoothly` (walk_smooth.py lines
298-304): the raw waveform value clamped to the servo's limits. -/
def target_angle (c : GaitCal) (phase group_offset : ℝ) : ℝ :=
  clamp_angle c (raw_angle c phase group_offset)

/-- The BottomSwing example calibration used in the specification:
swing_forward = 200, swing_backward = 150, min = 130, max = 220. -/
def exampleBottomCal : GaitCal :=
  { role := Role.bottom
    min_angle := 130
    max_angle := 220
    neutral_angle := 175
    swing_forward := 200
    swing_backward := 150
    lift_up := 0
    lift_down := 0 }

/-- The raw waveform only depends on the sum `phase + group_offset`. -/
theorem raw_angle_eq_of_sum_eq (c : GaitCal) {a b a' b' : ℝ} (h : a + b = a' + b') :
    raw_angle c a b = raw_angle c a' b' := by
  cases hr : c.role <;> simp [raw_angle, hr, h]

/-- C1: for every calibration and phase, the raw gait target is
`(swing_forward - swing_backward)/2 * sin(p) + (swing_forward + swing_backward)/2`
for a bottom (swing) servo and
`(lift_up - lift_down)/2 * cos(p) + (lift_up + lift_down)/2` for a top (lift)
servo, where `p = phase + group_offset`; and the spec's example BottomSwing
calibration at phase π/2 is commanded exactly 200 (unclamped). -/
theorem C1_gait_waveform (c : GaitCal) (phase go : ℝ) :
    (c.role = Role.bottom →
      raw_angle c phase go
        = (c.swing_forward - c.swing_backward) / 2 * Real.sin (phase + go)
          + (c.swing_forward + c.swing_backward) / 2)
    ∧ (c.role = Role.top →
      raw_angle c phase go
        = (c.lift_up - c.lift_down) / 2 * Real.cos (phase + go)
          + (c.lift_up + c.lift_down) / 2)
    ∧ target_angle exampleBottomCal (Real.pi / 2) 0 = 200 := by
  refine ⟨fun hr => ?_, fun hr => ?_, ?_⟩
  · simp [raw_angle, amplitude, offset, hr]
  · simp [raw_angle, amplitude, offset, hr]
  · have hs : Real.sin (Real.pi / 2 + 0) = 1 := by
      rw [add_zero, Real.sin_pi_div_two]
    simp only [target_angle, raw_angle, exampleBottomCal, amplitude, offset,
      clamp_angle, clamp_val, hs]
    norm_num

/-- Witness for C1 at the spec's example calibration. -/
theorem C1_gait_waveform_witness :
    raw_angle exampleBottomCal (Real.pi / 2) 0
      = (exampleBottomCal.swing_forward - exampleBottomCal.swing_backward) / 2
          * Real.sin (Real.pi / 2 + 0)
        + (exampleBottomCal.swing_forward + exampleBottomCal.swing_backward) / 2 :=
  (C1_gait_waveform exampleBottomCal (Real.pi / 2) 0).1 rfl

/-- C2: whenever `min_angle ≤ max_angle`, the commanded (clamped) angle lies
between the servo's limits, for every phase and group offset. -/
theorem C2_clamp_invariant (c : GaitCal) (phase go : ℝ)
    (h : c.min_angle ≤ c.max_angle) :
    c.min_angle ≤ target_angle c phase go ∧ target_angle c phase go ≤ c.max_angle := by
  unfold target_angle clamp_angle clamp_val
  exact ⟨le_max_right _ _, max_le (min_le_right _ _) h⟩

/-- Witness for C2 at the spec's example calibration and phase π/2. -/
theorem C2_clamp_invariant_witness :
    exampleBottomCal.min_angle ≤ target_angle exampleBottomCal (Real.pi / 2) 0
    ∧ target_angle exampleBottomCal (Real.pi / 2) 0 ≤ exampleBottomCal.max_angle :=
  C2_clamp_invariant exampleBottomCal (Real.pi / 2) 0
    (by norm_num [exampleBottomCal])

/-- C3: the commanded angle is periodic in phase with period 2π, and shifting
the phase by π with group offset 0 agrees with group offset π at the original
phase. -/
theorem C3_periodicity_group_offset (c : GaitCal) (phase go : ℝ) :
    target_angle c (phase + 2 * Real.pi) go = target_angle c phase go
    ∧ target_angle c (phase + Real.pi) 0 = target_angle c phase Real.pi := by
  constructor
  · unfold target_angle
    congr 1
    have harg : phase + 2 * Real.pi + go = phase + go + 2 * Real.pi := by ring
    cases hr : c.role <;>
      simp [raw_angle, hr, harg, Real.sin_add_two_pi, Real.cos_add_two_pi]
  · unfold target_angle
    congr 1
    exact raw_angle_eq_of_sum_eq c (by ring)

/-- C9: the clamping function returns exactly `max(min_angle, min(x, max_angle))`
whenever the limits are ordered (and, being a function, it is deterministic). -/
theorem C9_clamp_formula (mn mx x : ℝ) (h : mn ≤ mx) :
    clamp_val mn mx x = max mn (min x mx) :=
  max_comm (min x mx) mn

/-- Witness for C9 at concrete limits 130 ≤ 220 and input 400. -/
theorem C9_clamp_formula_witness :
    clamp_val (130 : ℝ) 220 400 = max 130 (min 400 220) :=
  C9_clamp_formula 130 220 400 (by norm_num)

/-- Leg names of the `LEGS` table in `walk_smooth.py` (lines 93-98). -/
def legNames : List String :=
  ["Front Left", "Front Right", "Back Left", "Back Right"]

/-- Per-leg phase shift assignment of `walk_smoothly` (walk_smooth.py lines
283-289): Front Left and Back Right get 0, Front Right and Back Left get π,
anything else gets 0. -/
def phase_shift (leg_name : String) : ℝ :=
  if leg_name = "Front Left" ∨ leg_name = "Back Right" then 0
  else if leg_name = "Front Right" ∨ leg_name = "Back Left" then Real.pi
  else 0

/-- Per-servo phase shift of the main loop of `walk_old.py` (lines 74-88),
indexed by position 0..7 in its `servos` list: servos 0-1 get 0, servos 2-3
get 1.57, servos 4-5 get 3.14, servos 6-7 get 4.71. -/
def walk_old_phase_shift (i : ℕ) : ℝ :=
  match i with
  | 0 => 0
  | 1 => 0
  | 2 => 1.57
  | 3 => 1.57
  | 4 => 3.14
  | 5 => 3.14
  | 6 => 4.71
  | 7 => 4.71
  | _ => 0

/-- C8 counterexample: in `walk_old.py` the front-right leg's servos are driven
with phase offset 1.57, which is neither 0 nor π, refuting the claim that no
offset other than 0 or π is ever applied. -/
theorem C8_counterexample :
    walk_old_phase_shift 2 ≠ 0 ∧ walk_old_phase_shift 2 ≠ Real.pi := by
  have h3 := Real.pi_gt_three
  constructor
  · norm_num [walk_old_phase_shift]
  · simp only [walk_old_phase_shift]
    intro h
    rw [← h] at h3
    norm_num at h3

/-- C8 amended: in `walk_smooth.py` every leg's phase offset is 0 or π, but in
`walk_old.py` the applied offsets are the four values 0, 1.57, 3.14, 4.71. -/
theorem C8_amended_phase_offsets :
    (∀ name ∈ legNames, phase_shift name = 0 ∨ phase_shift name = Real.pi)
    ∧ (∀ i < 8, walk_old_phase_shift i = 0 ∨ walk_old_phase_shift i = 1.57
        ∨ walk_old_phase_shift i = 3.14 ∨ walk_old_phase_shift i = 4.71) := by
  constructor
  · intro name hname
    fin_cases hname <;> simp [phase_shift]
  · intro i hi
    interval_cases i <;> simp [walk_old_phase_shift]

/-- Witness for C8 amended at the Front Left leg. -/
theorem C8_amended_phase_offsets_witness :
    phase_shift "Front Left" = 0 ∨ phase_shift "Front Left" = Real.pi :=
  C8_amended_phase_offsets.1 "Front Left" (by simp [legNames])

end

/-- Calibration record for one servo of `walk.py`'s `SERVOS` table (lines
14-79). All values there are decimal literals, so they are modelled exactly as
rationals. The role is `bottom` when "Bottom" occurs in the Python name and
`top` when "Top" does. Fields of the other role are zero and never read. -/
structure WalkCal where
  role : Role
  min_angle : ℚ
  max_angle : ℚ
  neutral_angle : ℚ
  swing_forward : ℚ
  swing_backward : ℚ
  lift_up : ℚ
  lift_down : ℚ
deriving DecidableEq, Repr

/-- The `SERVOS` table of `walk.py` (lines 14-79), in dict insertion order
1..8, as (servo id, calibration) pairs. -/
def walkServos : List (ℕ × WalkCal) :=
  [ (1, { role := Role.bottom, min_angle := 160, max_angle := 210,
          neutral_angle := 185, swing_forward := 150.1, swing_backward := 185.1,
          lift_up := 0, lift_down := 0 })
  , (2, { role := Role.top, min_angle := 105, max_angle := 135,
          neutral_angle := 125, swing_forward := 0, swing_backward := 0,
          lift_up := 125.1, lift_down := 115.9 })
  , (3, { role := Role.bottom, min_angle := 130, max_angle := 220,
          neutral_angle := 210, swing_forward := 180, swing_backward := 210.82,
          lift_up := 0, lift_down := 0 })
  , (4, { role := Role.top, min_angle := 130, max_angle := 180,
          neutral_angle := 125, swing_forward := 0, swing_backward := 0,
          lift_up := 125.1, lift_down := 140.8 })
  , (5, { role := Role.bottom, min_angle := 150, max_angle := 199.92,
          neutral_angle := 170, swing_forward := 199.82, swing_backward := 170,
          lift_up := 0, lift_down := 0 })
  , (6, { role := Role.top, min_angle := 75, max_angle := 135,
          neutral_angle := 100, swing_forward := 0, swing_backward := 0,
          lift_up := 100.1, lift_down := 90.78 })
  , (7, { role := Role.bottom, min_angle := 130, max_angle := 179.76,
          neutral_angle := 170, swing_forward := 150.66, swing_backward := 170.1,
          lift_up := 0, lift_down := 0 })
  , (8, { role := Role.top, min_angle := 60, max_angle := 90,
          neutral_angle := 65, swing_forward := 0, swing_backward := 0,
          lift_up := 65.78, lift_down := 80.1 }) ]

/-- The angle `homing_sequence` of `walk.py` (lines 148-164) commands a servo:
the midpoint of `swing_backward` and `swing_forward` for a "Bottom" servo and
`lift_down` for a "Top" servo — not the `neutral_angle` field, and unclamped. -/
def walk_homing_angle (c : WalkCal) : ℚ :=
  match c.role with
  | Role.bottom => (c.swing_backward + c.swing_forward) / 2
  | Role.top => c.lift_down

/-- The full move trace of `homing_sequence` in `walk.py`: one move per servo,
in the table's fixed order. -/
def walk_homing_moves : List (ℕ × ℚ) :=
  walkServos.map (fun p => (p.1, walk_homing_angle p.2))

/-- The move trace of `homing_sequence` in `walk_smooth.py` (lines 232-247)
and `walk_step_by_step_single_leg.py` (lines 160-175): one move per servo in
the table's fixed order, commanding `clamp_angle(neutral_angle)`. It is stated
over an arbitrary table because the limits used for clamping are the ones
reported back by the hardware at boot. -/
noncomputable def homing_moves_neutral (tbl : List (ℕ × GaitCal)) : List (ℕ × ℝ) :=
  tbl.map (fun p => (p.1, clamp_angle p.2 p.2.neutral_angle))

/-- C4 counterexample: in `walk.py`, homing commands servo 1 the angle
(185.1 + 150.1)/2 = 167.6, which differs from its clamped neutral angle
max(160, min(185, 210)) = 185 — so homing does not command every servo its
calibrated neutral angle. -/
theorem C4_counterexample :
    walk_homing_moves.get? 0 = some (1, 167.6)
    ∧ (167.6 : ℚ) ≠ clamp_val 160 210 185 := by
  constructor
  · norm_num [walk_homing_moves, walkServos, walk_homing_angle]
  · norm_num [clamp_val]

/-- C4 amended: homing commands every servo exactly once, one at a time in the
table's fixed order; in `walk_smooth.py` (and the single-leg script) the
commanded angle is the servo's clamped `neutral_angle`, while in `walk.py` it
is the midpoint of the swing extremes for Bottom servos and `lift_down` for
Top servos, giving the concrete trace listed here. -/
theorem C4_amended_homing :
    (∀ tbl : List (ℕ × GaitCal), (homing_moves_neutral tbl).length = tbl.length)
    ∧ (∀ (tbl : List (ℕ × GaitCal)) (i : ℕ),
        (homing_moves_neutral tbl).get? i
          = (tbl.get? i).map (fun p => (p.1, clamp_angle p.2 p.2.neutral_angle)))
    ∧ walk_homing_moves
        = [(1, 167.6), (2, 115.9), (3, 195.41), (4, 140.8),
           (5, 184.91), (6, 90.78), (7, 160.38), (8, 80.1)] := by
  refine ⟨fun tbl => List.length_map _ _, fun tbl i => List.get?_map _ _ _, ?_⟩
  norm_num [walk_homing_moves, walkServos, walk_homing_angle]

/-- Increasing branch of `generate_angles` in `walk.py` (lines 173-177):
yield `current` while `current <= stop`, incrementing by the positive `step`. -/
def genUp (current stop step : ℚ) (h : 0 < step) : List ℚ :=
  if hle : current ≤ stop then current :: genUp (current + step) stop step h
  else []
termination_by (Int.floor ((stop - current) / step) + 1).toNat
decreasing_by
  have hq : (0:ℚ) ≤ (stop - current) / step := div_nonneg (by linarith) h.le
  have hfl : (0:ℤ) ≤ Int.floor ((stop - current) / step) := Int.floor_nonneg.mpr hq
  have heq : (stop - (current + step)) / step = (stop - current) / step - 1 := by
    field_simp
    ring
  have key : Int.floor ((stop - current) / step - 1)
      = Int.floor ((stop - current) / step) - 1 := Int.floor_sub_one _
  rw [heq]
  omega

/-- Decreasing branch of `generate_angles` in `walk.py` (lines 178-182):
yield `current` while `current >= stop`, incrementing by the negative `step`. -/
def genDown (current stop step : ℚ) (h : step < 0) : List ℚ :=
  if hle : stop ≤ current then current :: genDown (current + step) stop step h
  else []
termination_by (Int.floor ((current - stop) / (-step)) + 1).toNat
decreasing_by
  have hs : (0:ℚ) < -step := by linarith
  have hq : (0:ℚ) ≤ (current - stop) / (-step) := div_nonneg (by linarith) hs.le
  have hfl : (0:ℤ) ≤ Int.floor ((current - stop) / (-step)) := Int.floor_nonneg.mpr hq
  have hne : (-step) ≠ 0 := ne_of_gt hs
  have hsne : step ≠ 0 := ne_of_lt h
  have heq : (current + step - stop) / (-step) = (current - stop) / (-step) - 1 := by
    field_simp
    ring
  have key : Int.floor ((current - stop) / (-step) - 1)
      = Int.floor ((current - stop) / (-step)) - 1 := Int.floor_sub_one _
  rw [heq]
  omega

/-- `generate_angles` of `walk.py` (lines 166-182): raises ValueError when
`step` is zero, otherwise runs the increasing or decreasing loop. The error is
modelled with `Except.error` carrying the Python message. -/
def generate_angles (start stop step : ℚ) : Except String (List ℚ) :=
  if h0 : step = 0 then Except.error "Step cannot be zero."
  else if hpos : 0 < step then Except.ok (genUp start stop step hpos)
  else Except.ok (genDown start stop step (lt_of_le_of_ne (not_lt.mp hpos) h0))

/-- Every angle yielded by the increasing loop lies between its start and stop. -/
theorem genUp_mem_bounds (current stop step : ℚ) (h : 0 < step) :
    ∀ x ∈ genUp current stop step h, current ≤ x ∧ x ≤ stop := by
  induction current, stop, step, h using genUp.induct with
  | case1 current stop step h hle ih =>
    intro x hx
    rw [genUp.eq_def] at hx
    simp only [dif_pos hle, List.mem_cons] at hx
    rcases hx with rfl | hx
    · exact ⟨le_refl _, hle⟩
    · have hb := ih x hx
      exact ⟨by linarith [hb.1], hb.2⟩
  | case2 current stop step h hle =>
    intro x hx
    rw [genUp.eq_def] at hx
    simp [dif_neg hle] at hx

/-- Every angle yielded by the decreasing loop lies between its stop and start. -/
theorem genDown_mem_bounds (current stop step : ℚ) (h : step < 0) :
    ∀ x ∈ genDown current stop step h, stop ≤ x ∧ x ≤ current := by
  induction current, stop, step, h using genDown.induct with
  | case1 current stop step h hle ih =>
    intro x hx
    rw [genDown.eq_def] at hx
    simp only [dif_pos hle, List.mem_cons] at hx
    rcases hx with rfl | hx
    · exact ⟨hle, le_refl _⟩
    · have hb := ih x hx
      exact ⟨hb.1, by linarith [hb.2]⟩
  | case2 current stop step h hle =>
    intro x hx
    rw [genDown.eq_def] at hx
    simp [dif_neg hle] at hx

/-- The increasing loop yields nothing when start is already past stop. -/
theorem genUp_empty (start stop step : ℚ) (h : 0 < step) (hlt : stop < start) :
    genUp start stop step h = [] := by
  rw [genUp.eq_def, dif_neg (not_le.mpr hlt)]

/-- The decreasing loop yields nothing when start is already below stop. -/
theorem genDown_empty (start stop step : ℚ) (h : step < 0) (hlt : start < stop) :
    genDown start stop step h = [] := by
  rw [genDown.eq_def, dif_neg (not_le.mpr hlt)]

/-- C10: `generate_angles` errors exactly when `step = 0`; for nonzero step it
returns a (finite) list whose every element lies between start and stop in the
direction of the step, and which is empty when start already lies past stop. -/
theorem C10_generate_angles (start stop step : ℚ) :
    (step = 0 → generate_angles start stop step = Except.error "Step cannot be zero.")
    ∧ (step ≠ 0 → ∃ l : List ℚ, generate_angles start stop step = Except.ok l
        ∧ (0 < step → (∀ x ∈ l, start ≤ x ∧ x ≤ stop) ∧ (stop < start → l = []))
        ∧ (step < 0 → (∀ x ∈ l, stop ≤ x ∧ x ≤ start) ∧ (start < stop → l = []))) := by
  constructor
  · intro h0
    unfold generate_angles
    rw [dif_pos h0]
  · intro hne
    by_cases hpos : 0 < step
    · refine ⟨genUp start stop step hpos, ?_, ?_, ?_⟩
      · unfold generate_angles
        rw [dif_neg hne, dif_pos hpos]
      · exact fun _ => ⟨genUp_mem_bounds start stop step hpos,
          genUp_empty start stop step hpos⟩
      · intro hneg
        exact absurd hpos (not_lt.mpr hneg.le)
    · have hneg : step < 0 := lt_of_le_of_ne (not_lt.mp hpos) hne
      refine ⟨genDown start stop step hneg, ?_, ?_, ?_⟩
      · unfold generate_angles
        rw [dif_neg hne, dif_neg hpos]
      · intro hpos'
        exact absurd hpos' hpos
      · exact fun _ => ⟨genDown_mem_bounds start stop step hneg,
          genDown_empty start stop step hneg⟩

/-- Witness for C10 at (start, stop, step) = (0, 2, 1). -/
theorem C10_generate_angles_witness :
    ∃ l : List ℚ, generate_angles 0 2 1 = Except.ok l
      ∧ ((0:ℚ) < 1 → (∀ x ∈ l, (0:ℚ) ≤ x ∧ x ≤ 2) ∧ ((2:ℚ) < 0 → l = []))
      ∧ ((1:ℚ) < 0 → (∀ x ∈ l, (2:ℚ) ≤ x ∧ x ≤ 0) ∧ ((0:ℚ) < 2 → l = [])) :=
  (C10_generate_angles 0 2 1).2 (by norm_num)

/-- The list a caller obtains from `list(generate_angles(...))` in `walk.py`;
the walking callers always pass a nonzero step, so the error branch is unreachable
there and is mapped to the empty list. -/
def generate_angles_list (start stop step : ℚ) : List ℚ :=
  match generate_angles start stop step with
  | Except.ok l => l
  | Except.error _ => []

/-- Move trace of `lift_legs` in `walk.py` (lines 184-194): for each servo id
of the group, in order, a "Top" servo is moved to its `lift_up` angle. -/
def lift_legs_moves (group : List ℕ) : List (ℕ × ℚ) :=
  group.filterMap (fun id =>
    (walkServos.lookup id).bind (fun c =>
      match c.role with
      | Role.top => some (id, c.lift_up)
      | Role.bottom => none))

/-- Move trace of `lower_legs` in `walk.py` (lines 196-206): for each servo id
of the group, in order, a "Top" servo is moved to its `lift_down` angle. -/
def lower_legs_moves (group : List ℕ) : List (ℕ × ℚ) :=
  group.filterMap (fun id =>
    (walkServos.lookup id).bind (fun c =>
      match c.role with
      | Role.top => some (id, c.lift_down)
      | Role.bottom => none))

/-- The per-servo angle sequences built by `swing_legs_forward` in `walk.py`
(lines 211-227): for each "Bottom" servo of the group, a stepped sequence from
`swing_backward` to `swing_forward`, with the step's sign chosen by their order. -/
def swing_sequences (group : List ℕ) (step_size : ℚ) : List (ℕ × List ℚ) :=
  group.filterMap (fun id =>
    (walkServos.lookup id).bind (fun c =>
      match c.role with
      | Role.bottom =>
        some (id, generate_angles_list c.swing_backward c.swing_forward
          (if c.swing_backward < c.swing_forward then step_size else -step_size))
      | Role.top => none))

/-- `max_steps` of `swing_legs_forward`: the length of the longest sequence. -/
def max_steps (seqs : List (ℕ × List ℚ)) : ℕ :=
  (seqs.map (fun p => p.2.length)).foldr max 0

/-- Move trace of `swing_legs_forward` in `walk.py` (lines 229-239): servos are
stepped in lock-step, each skipped once its own sequence is exhausted. -/
def swing_legs_forward_moves (group : List ℕ) (step_size : ℚ) : List (ℕ × ℚ) :=
  (List.range (max_steps (swing_sequences group step_size))).flatMap (fun i =>
    (swing_sequences group step_size).filterMap (fun p =>
      (p.2.get? i).map (fun a => (p.1, a))))

/-- `GROUP_A` of `walk.py` (line 81): Front Left and Back Right servos. -/
def GROUP_A : List ℕ := [3, 4, 7, 8]

/-- `GROUP_B` of `walk.py` (line 82): Back Left and Front Right servos. -/
def GROUP_B : List ℕ := [1, 2, 5, 6]

/-- Moves of one leg-group block of the walking loop in `walk.py` (lines
253-256 and 264-267): lift, swing forward with step size 5, then lower. -/
def group_moves (group : List ℕ) : List (ℕ × ℚ) :=
  lift_legs_moves group ++ swing_legs_forward_moves group 5 ++ lower_legs_moves group

/-- Moves issued by a sequence of decorated helper calls in `walk.py` when a
single hardware error is raised at the `fault`-th move of the session (indices
from 0). The `handle_disconnection` wrapper of `walk.py` (lines 95-127) catches
the exception on the worker thread and returns, so only the remaining moves of
the faulting helper are skipped; every later helper still runs in full. -/
def runSession (fault : ℕ) : List (List (ℕ × ℚ)) → List (ℕ × ℚ)
  | [] => []
  | c :: cs =>
    if c.length ≤ fault then c ++ runSession (fault - c.length) cs
    else c.take fault ++ cs.flatten

/-- Moves of one Group-A block split into its three decorated helper calls. -/
def groupACalls : List (List (ℕ × ℚ)) :=
  [lift_legs_moves GROUP_A, swing_legs_forward_moves GROUP_A 5, lower_legs_moves GROUP_A]

/-- C6 counterexample: injecting a `ServoTimeoutError` at the very first move
of `lift_legs(GROUP_A)` in `walk.py` does not stop the session — further move
commands (the whole swing and lower sequences) are still issued, refuting
"no further move commands are issued for the remainder of that session". -/
theorem C6_counterexample : runSession 0 groupACalls ≠ [] := by
  have hlower : lower_legs_moves GROUP_A = [(4, 140.8), (8, 80.1)] := rfl
  have hlen : (lift_legs_moves GROUP_A).length = 2 := rfl
  have hnot : ¬ ((lift_legs_moves GROUP_A).length ≤ 0) := by
    rw [hlen]
    norm_num
  have hshape : runSession 0 groupACalls
      = swing_legs_forward_moves GROUP_A 5 ++ lower_legs_moves GROUP_A := by
    simp only [groupACalls, runSession, if_neg hnot, List.take_zero,
      List.nil_append, List.flatten_cons, List.flatten_nil, List.append_nil]
  rw [hshape, hlower]
  simp

/-- C6 amended: in `walk.py` a hardware timeout during a move on the walk
thread aborts only the enclosing decorated helper — the session continues and
every later helper's moves are still issued (no transition to Homing and no
termination happens at the fault). Concretely, a fault at the first move of
`lift_legs(GROUP_A)` still issues the full swing sequence and then the two
lower moves [(4, 140.8), (8, 80.1)]. -/
theorem C6_amended_fault_continues (fault : ℕ) (c : List (ℕ × ℚ))
    (cs : List (List (ℕ × ℚ))) (hf : fault < c.length) :
    runSession fault (c :: cs) = c.take fault ++ cs.flatten
    ∧ runSession 0 groupACalls
        = swing_legs_forward_moves GROUP_A 5 ++ lower_legs_moves GROUP_A
    ∧ lower_legs_moves GROUP_A = [(4, 140.8), (8, 80.1)] := by
  have hlen : (lift_legs_moves GROUP_A).length = 2 := rfl
  have hnot : ¬ ((lift_legs_moves GROUP_A).length ≤ 0) := by
    rw [hlen]
    norm_num
  refine ⟨?_, ?_, rfl⟩
  · simp only [runSession, if_neg (not_le.mpr hf)]
  · simp only [groupACalls, runSession, if_neg hnot, List.take_zero,
      List.nil_append, List.flatten_cons, List.flatten_nil, List.append_nil]

/-- Witness for C6 amended at fault index 0 inside a one-move helper. -/
theorem C6_amended_fault_continues_witness :
    runSession 0 [[(1, 185)]] = List.take 0 [((1 : ℕ), (185 : ℚ))] ++ List.flatten []
    ∧ runSession 0 groupACalls
        = swing_legs_forward_moves GROUP_A 5 ++ lower_legs_moves GROUP_A
    ∧ lower_legs_moves GROUP_A = [(4, 140.8), (8, 80.1)] :=
  C6_amended_fault_continues 0 [(1, 185)] [] (by norm_num)

/-- Hardware-origin errors of the taxonomy: servo timeout, checksum mismatch,
serial transport disconnect, and the catch-all `Exception` branch. -/
inductive HwError
  | timeout (id_ : ℕ)
  | checksum
  | serialDisconnect
  | otherError
deriving DecidableEq, Repr

/-- Outcome of a call as the process sees it: a normal return, or process
termination with the given exit status. -/
inductive ProcOutcome (α : Type)
  | ok (a : α)
  | exitCode (code : ℕ)

/-- `handle_disconnection` of `walk_smooth.py` (lines 110-126) and
`walk_step_by_step_single_leg.py` (lines 97-113): every caught error branch
prints and calls `sys.exit(1)`; no other command is issued in the handler. -/
def handle_disconnection {α : Type} (r : Except HwError α) : ProcOutcome α :=
  match r with
  | Except.ok a => ProcOutcome.ok a
  | Except.error _ => ProcOutcome.exitCode 1

/-- `handle_disconnection` of `walk.py` (lines 95-127): on the main thread
every caught error branch prints and calls `quit()`, which terminates the
process with exit status 0; on a worker thread the branch only prints, so the
wrapper returns `None` and the caller continues. -/
def handle_disconnection_walk {α : Type} (isMainThread : Bool)
    (r : Except HwError α) : ProcOutcome (Option α) :=
  match r with
  | Except.ok a => ProcOutcome.ok (some a)
  | Except.error _ =>
    if isMainThread then ProcOutcome.exitCode 0 else ProcOutcome.ok none

/-- A single decorated actuation call: the moves it issued before returning or
raising, and its result. -/
structure TracedCall (α : Type) where
  moves : List (ℕ × ℚ)
  result : Except HwError α

/-- Running one call through the `walk_smooth.py` decorator: the wrapper calls
the function exactly once (no retry), adds no move commands of its own, and
maps any error to process exit 1. -/
def runDecorated {α : Type} (call : TracedCall α) :
    List (ℕ × ℚ) × ProcOutcome α :=
  (call.moves, handle_disconnection call.result)

/-- C5 counterexample: when a checksum error is raised, the `walk_smooth.py`
handler issues no move commands at all before exiting — in particular not the
(nonempty) homing sequence, so no best-effort homing is attempted; and in
`walk.py` a main-thread servo timeout terminates via `quit()` with exit
status 0, not a non-zero status. -/
theorem C5_counterexample :
    (runDecorated { moves := [],
                    result := (Except.error HwError.checksum : Except HwError Unit) }).1 = []
    ∧ walk_homing_moves ≠ []
    ∧ handle_disconnection_walk true
        (Except.error (HwError.timeout 1) : Except HwError Unit)
        = ProcOutcome.exitCode 0 := by
  refine ⟨rfl, ?_, rfl⟩
  simp [walk_homing_moves, walkServos]

/-- C5 amended: a hardware-origin error during a decorated call aborts the
sequence without any retry (the traced moves are exactly the single call's
moves), but no homing is attempted by the handler; `walk_smooth.py` exits with
status 1, while in `walk.py` a main-thread error exits with status 0 and a
worker-thread error only ends the thread (the wrapper returns `None`). -/
theorem C5_amended_error_handling {α : Type} (call : TracedCall α) (e : HwError)
    (h : call.result = Except.error e) :
    runDecorated call = (call.moves, ProcOutcome.exitCode 1)
    ∧ handle_disconnection_walk true call.result
        = (ProcOutcome.exitCode 0 : ProcOutcome (Option α))
    ∧ handle_disconnection_walk false call.result
        = (ProcOutcome.ok none : ProcOutcome (Option α)) := by
  refine ⟨?_, ?_, ?_⟩ <;>
    simp [runDecorated, handle_disconnection, handle_disconnection_walk, h]

/-- Witness for C5 amended at a serial-disconnect error. -/
theorem C5_amended_error_handling_witness :
    runDecorated { moves := [(1, 185)],
                   result := (Except.error HwError.serialDisconnect : Except HwError Unit) }
      = ([(1, 185)], ProcOutcome.exitCode 1) :=
  (C5_amended_error_handling
    { moves := [(1, 185)],
      result := (Except.error HwError.serialDisconnect : Except HwError Unit) }
    HwError.serialDisconnect rfl).1

/-- One session of walking mode in `walk.py` (lines 248-270 together with the
mode-1 epilogue of `main`, lines 415-431), driven by the values the two
`stop_event.is_set()` checks of each loop iteration return: the loop exits at
the first check that reads true, after which `main` joins the thread and runs
the homing sequence; while a check reads false the corresponding leg-group
block runs in full. An empty flag list models a session still in progress. -/
def walkRun : List (Bool × Bool) → List (ℕ × ℚ)
  | [] => []
  | (b1, b2) :: rest =>
    if b1 then walk_homing_moves
    else group_moves GROUP_A ++
      (if b2 then walk_homing_moves
       else group_moves GROUP_B ++ walkRun rest)

/-- C7: if the cancellation flag is first observed set at the top-of-iteration
check of tick `n` (all earlier checks read false), the session's move trace is
exactly the `n` completed gait ticks followed by the homing sequence — no gait
move command is issued after the cancellation is observed, blocks are never cut
mid-block, and the system transitions to homing; likewise when the flag is
first observed at the mid-iteration check, the Group A block of that iteration
completes and homing follows immediately. -/
theorem C7_cancellation_to_homing (n : ℕ) (flags : List (Bool × Bool))
    (htake : flags.take n = List.replicate n (false, false)) :
    (∀ b2 : Bool, flags.get? n = some (true, b2) →
      walkRun flags
        = (List.replicate n (group_moves GROUP_A ++ group_moves GROUP_B)).flatten
          ++ walk_homing_moves)
    ∧ (flags.get? n = some (false, true) →
      walkRun flags
        = (List.replicate n (group_moves GROUP_A ++ group_moves GROUP_B)).flatten
          ++ (group_moves GROUP_A ++ walk_homing_moves)) := by
  induction n generalizing flags with
  | zero =>
    cases flags with
    | nil =>
      constructor
      · intro b2 hget
        simp at hget
      · intro hget
        simp at hget
    | cons p rest =>
      constructor
      · intro b2 hget
        simp only [List.get?] at hget
        injection hget with hp
        subst hp
        simp [walkRun]
      · intro hget
        simp only [List.get?] at hget
        injection hget with hp
        subst hp
        simp [walkRun]
  | succ n ih =>
    cases flags with
    | nil =>
      constructor
      · intro b2 hget
        simp at hget
      · intro hget
        simp at hget
    | cons p rest =>
      have htake' : p = (false, false) ∧ rest.take n = List.replicate n (false, false) := by
        simpa [List.take, List.replicate] using htake
      obtain ⟨rfl, htr⟩ := htake'
      have ihr := ih rest htr
      constructor
      · intro b2 hget
        simp only [List.get?] at hget
        have hrec := ihr.1 b2 hget
        simp [walkRun, hrec, List.replicate, List.flatten_cons, List.append_assoc]
      · intro hget
        simp only [List.get?] at hget
        have hrec := ihr.2 hget
        simp [walkRun, hrec, List.replicate, List.flatten_cons, List.append_assoc]

/-- Witness for C7: cancellation observed at the top of the second iteration
after one full gait tick. -/
theorem C7_cancellation_to_homing_witness :
    walkRun [(false, false), (true, false)]
      = (List.replicate 1 (group_moves GROUP_A ++ group_moves GROUP_B)).flatten
        ++ walk_homing_moves :=
  (C7_cancellation_to_homing 1 [(false, false), (true, false)] (by decide)).1
    false (by decide)

end FidoBeam
